import Mathlib

/-!
Shallow embedding of the OpenAI-compatible endpoint adapter
(`extensions/openai_compatible/endpoints/openai_compatible.py`).

The Python code is translated function by function:
* dict-shaped payloads (messages, backend events, backend responses) become
  structures whose `Option` fields model `dict.get` with its `None` default;
* Python truthiness of strings/options is modelled explicitly;
* `hashlib.sha256(...).hexdigest()` is implemented concretely (FIPS 180-4)
  over byte lists obtained by UTF-8 encoding;
* `json.dumps` with its default separators and `ensure_ascii` behaviour is
  implemented concretely so that the emitted wire chunks are actual strings;
* the external storage capability is a state `String → Option (List Nat)`
  plus a fault model, and the pydantic (de)serialisation of
  `ConversationInfo` is an abstract parameter, since only its success or
  failure is observable to the adapter.
-/

namespace DifyCompat

/-- Python truthiness of an optional string (`None` and `""` are falsy). -/
def pyTruthyOptStr : Option String → Bool
  | none => false
  | some s => s ≠ ""

/-! ## SHA-256 (FIPS 180-4), over `Nat` with explicit `% 2^32` -/

def m32 : Nat := 4294967296

def rotr32 (n x : Nat) : Nat :=
  ((x >>> n) ||| (x <<< (32 - n))) % m32

def shaCh (e f g : Nat) : Nat := (e &&& f) ^^^ ((e ^^^ 4294967295) &&& g)

def shaMaj (a b c : Nat) : Nat := (a &&& b) ^^^ (a &&& c) ^^^ (b &&& c)

def bigSigma0 (x : Nat) : Nat := rotr32 2 x ^^^ rotr32 13 x ^^^ rotr32 22 x

def bigSigma1 (x : Nat) : Nat := rotr32 6 x ^^^ rotr32 11 x ^^^ rotr32 25 x

def smlSigma0 (x : Nat) : Nat := rotr32 7 x ^^^ rotr32 18 x ^^^ (x >>> 3)

def smlSigma1 (x : Nat) : Nat := rotr32 17 x ^^^ rotr32 19 x ^^^ (x >>> 10)

/-- The 64 SHA-256 round constants, in decimal. -/
def K256 : List Nat :=
  [1116352408, 1899447441, 3049323471, 3921009573, 961987163, 1508970993,
   2453635748, 2870763221, 3624381080, 310598401, 607225278, 1426881987,
   1925078388, 2162078206, 2614888103, 3248222580, 3835390401, 4022224774,
   264347078, 604807628, 770255983, 1249150122, 1555081692, 1996064986,
   2554220882, 2821834349, 2952996808, 3210313671, 3336571891, 3584528711,
   113926993, 338241895, 666307205, 773529912, 1294757372, 1396182291,
   1695183700, 1986661051, 2177026350, 2456956037, 2730485921, 2820302411,
   3259730800, 3345764771, 3516065817, 3600352804, 4094571909, 275423344,
   430227734, 506948616, 659060556, 883997877, 958139571, 1322822218,
   1537002063, 1747873779, 1955562222, 2024104815, 2227730452, 2361852424,
   2428436474, 2756734187, 3204031479, 3329325298]

/-- The eight SHA-256 initial hash words, in decimal. -/
def H256 : List Nat :=
  [1779033703, 3144134277, 1013904242, 2773480762,
   1359893119, 2600822924, 528734635, 1541459225]

/-- `d` big-endian bytes of `n`. -/
def beBytes : Nat → Nat → List Nat
  | _, 0 => []
  | n, d + 1 => beBytes (n / 256) d ++ [n % 256]

/-- Number of zero bytes between the `0x80` byte and the 8-byte length. -/
def padZeros (l : Nat) : Nat := (120 - (l + 1) % 64) % 64

def sha256pad (msg : List Nat) : List Nat :=
  msg ++ 0x80 :: List.replicate (padZeros msg.length) 0 ++ beBytes (8 * msg.length) 8

/-- Group bytes into big-endian 32-bit words. -/
def words32 : List Nat → List Nat
  | b0 :: b1 :: b2 :: b3 :: rest => (((b0 * 256 + b1) * 256 + b2) * 256 + b3) :: words32 rest
  | _ => []

/-- Split the padded message into 64-byte blocks (structural recursion on a
fuel bound so that the definition reduces definitionally; the fuel
`l.length` always suffices since each step consumes at least one byte). -/
def blocks64Go : Nat → List Nat → List (List Nat)
  | 0, _ => []
  | _, [] => []
  | fuel + 1, b :: bs => ((b :: bs).take 64) :: blocks64Go fuel ((b :: bs).drop 64)

def blocks64 (l : List Nat) : List (List Nat) := blocks64Go l.length l

/-- Message-schedule extension, on a reversed word list (head = latest word). -/
def extendW : List Nat → Nat → List Nat
  | wrev, 0 => wrev
  | wrev, n + 1 =>
    extendW (((smlSigma1 (wrev.getD 1 0) + wrev.getD 6 0 + smlSigma0 (wrev.getD 14 0)
        + wrev.getD 15 0) % m32) :: wrev) n

def schedule (w16 : List Nat) : List Nat := (extendW w16.reverse 48).reverse

/-- One compression round; the state is `[a, b, c, d, e, f, g, h]`,
`kw` is `K[i] + W[i]`. -/
def round32 (hs : List Nat) (kw : Nat) : List Nat :=
  match hs with
  | [a, b, c, d, e, f, g, h] =>
    let t1 := (h + bigSigma1 e + shaCh e f g + kw) % m32
    let t2 := (bigSigma0 a + shaMaj a b c) % m32
    [(t1 + t2) % m32, a, b, c, (d + t1) % m32, e, f, g]
  | other => other

def compressBlock (h : List Nat) (block : List Nat) : List Nat :=
  let kw := (K256.zip (schedule (words32 block))).map (fun p => p.1 + p.2)
  let s := kw.foldl round32 h
  (h.zip s).map (fun p => (p.1 + p.2) % m32)

def sha256words (msg : List Nat) : List Nat :=
  (blocks64 (sha256pad msg)).foldl compressBlock H256

def hexDigit (n : Nat) : Char :=
  if n < 10 then Char.ofNat (48 + n) else Char.ofNat (87 + n)

def hexDigits : Nat → Nat → List Char
  | _, 0 => []
  | n, d + 1 => hexDigits (n / 16) d ++ [hexDigit (n % 16)]

def toHex8 (n : Nat) : String := String.mk (hexDigits n 8)

def sha256hex (msg : List Nat) : String :=
  String.join ((sha256words msg).map toHex8)

/-- UTF-8 encoding of one character (code point). -/
def utf8Char (c : Char) : List Nat :=
  let n := c.toNat
  if n < 0x80 then [n]
  else if n < 0x800 then [0xc0 + n / 64, 0x80 + n % 64]
  else if n < 0x10000 then [0xe0 + n / 4096, 0x80 + (n / 64) % 64, 0x80 + n % 64]
  else [0xf0 + n / 262144, 0x80 + (n / 4096) % 64, 0x80 + (n / 64) % 64, 0x80 + n % 64]

/-- UTF-8 encoding of a string, as Python's `str.encode()`. -/
def utf8 (s : String) : List Nat := (s.data.map utf8Char).flatten

/-! ## Data model

A chat message is a dict accessed as `msg.get("role")`, `msg.get("content")`
and `msg.get("content", "")`; `none` models an absent key.  (A key present
with value `None` is reported identically by `.get` without default, but
would crash the Python fallback slice `content[:50]`; the spec's data
model types `content` as a string, so that malformed shape is outside the
model.) -/

structure Message where
  role : Option String
  content : Option String
deriving DecidableEq, Repr

/-- `str(x)` for an optional value, as in the f-string
`f"\x7bmsg.get('role')\x7d:..."`: `None` prints as `"None"`. -/
def pyStr : Option String → String
  | none => "None"
  | some s => s

/-! ## Fingerprint generator (`_generate_conversation_key`) -/

/-- The `system_message` variable after the first loop: content (defaulted to
`""`) of the first message with role `"system"`, `none` when there is none. -/
def systemMessageOf (messages : List Message) : Option String :=
  (messages.find? (fun m => m.role == some "system")).map (fun m => m.content.getD "")

/-- The `first_user_message` variable: content (defaulted to `""`) of the
first message with role `"user"`. -/
def firstUserMessageOf (messages : List Message) : Option String :=
  (messages.find? (fun m => m.role == some "user")).map (fun m => m.content.getD "")

/-- The fallback features: `f"\x7brole\x7d:\x7bcontent[:50]\x7d"` for the first
four messages (`i > 3` breaks the loop). -/
def fallbackFeatures (messages : List Message) : List String :=
  (messages.take 4).map (fun m => pyStr m.role ++ ":" ++ (m.content.getD "").take 50)

/-- The `feature_str` value: the joined feature list plus `"||user:" + user`. -/
def featureStr (messages : List Message) (user : String) : String :=
  let f1 : List String :=
    if pyTruthyOptStr (systemMessageOf messages) then
      ["system:" ++ (systemMessageOf messages).getD ""] else []
  let f2 : List String :=
    if pyTruthyOptStr (firstUserMessageOf messages) then
      ["first_user:" ++ (firstUserMessageOf messages).getD ""] else []
  let features :=
    if (f1 ++ f2).length < 1 then fallbackFeatures messages else f1 ++ f2
  String.intercalate "||" features ++ "||user:" ++ user

/-- `_generate_conversation_key`: SHA-256 hex digest of the UTF-8 encoded
feature string. -/
def generateConversationKey (messages : List Message) (user : String) : String :=
  sha256hex (utf8 (featureStr messages user))

/-! ## JSON values and `json.dumps` (default arguments) -/

inductive JValue where
  | null : JValue
  | str : String → JValue
  | int : Int → JValue
  | obj : List (String × JValue) → JValue
  | arr : List JValue → JValue
deriving Repr

/-- Lookup in a JSON object's field list (Python dicts preserve insertion
order; keys here are unique). -/
def jFieldGet : List (String × JValue) → String → Option JValue
  | [], _ => none
  | (k, v) :: rest, key => if k = key then some v else jFieldGet rest key

def jObjGet : JValue → String → Option JValue
  | .obj fields, key => jFieldGet fields key
  | _, _ => none

/-- `choices[0]` of a wire object. -/
def jChoice0 (v : JValue) : Option JValue :=
  match jObjGet v "choices" with
  | some (.arr (c :: _)) => some c
  | _ => none

/-- `\uXXXX` escape of a 16-bit unit. -/
def uEsc16 (n : Nat) : String := "\\u" ++ String.mk (hexDigits n 4)

/-- `json.dumps` escaping with `ensure_ascii=True`: `\"`, `\\`, the short
control escapes, `\uXXXX` for other control or non-ASCII characters, and
surrogate pairs beyond the BMP. -/
def jEscapeChar (c : Char) : String :=
  if c = '"' then "\\\""
  else if c = '\\' then "\\\\"
  else if c = '\n' then "\\n"
  else if c = '\r' then "\\r"
  else if c = '\t' then "\\t"
  else if c = '\x08' then "\\b"
  else if c = '\x0c' then "\\f"
  else if c.toNat < 0x20 then uEsc16 c.toNat
  else if c.toNat < 0x7f then String.singleton c
  else if c.toNat < 0x10000 then uEsc16 c.toNat
  else
    uEsc16 (0xd800 + (c.toNat - 0x10000) / 1024)
      ++ uEsc16 (0xdc00 + (c.toNat - 0x10000) % 1024)

def jEscape (s : String) : String := String.join (s.data.map jEscapeChar)

mutual

/-- `json.dumps` with the default separators `", "` and `": "`. -/
def jDumps : JValue → String
  | .null => "null"
  | .str s => "\"" ++ jEscape s ++ "\""
  | .int n => toString n
  | .obj fields => "\x7b" ++ String.intercalate ", " (jFieldStrs fields) ++ "\x7d"
  | .arr xs => "[" ++ String.intercalate ", " (jElemStrs xs) ++ "]"

def jFieldStrs : List (String × JValue) → List String
  | [] => []
  | (k, v) :: rest => ("\"" ++ jEscape k ++ "\": " ++ jDumps v) :: jFieldStrs rest

def jElemStrs : List JValue → List String
  | [] => []
  | v :: rest => jDumps v :: jElemStrs rest

end

/-! ## Backend payloads

Backend events and responses are dicts; the adapter reads the fields below
(spec section 6). `metadata.usage` is a nested dict read with
`.get(..., \x7b\x7d)` defaults. -/

structure Usage where
  completion_tokens : Option Int
  prompt_tokens : Option Int
  total_tokens : Option Int
deriving DecidableEq, Repr

structure Meta where
  usage : Option Usage
deriving DecidableEq, Repr

structure Event where
  event : Option String
  message_id : Option String
  created : Option Int
  answer : Option String
  metadata : Option Meta
  url : Option String
  id : Option String
  conversation_id : Option String
deriving DecidableEq, Repr

/-- Truthiness of the event dict (`if first_chunk:`): a dict is truthy iff
it has a key; the adapter only observes the keys modelled here. -/
def Event.truthy (e : Event) : Bool :=
  e.event.isSome || e.message_id.isSome || e.created.isSome || e.answer.isSome
    || e.metadata.isSome || e.url.isSome || e.id.isSome || e.conversation_id.isSome

/-- `data.get("metadata", \x7b\x7d).get("usage", \x7b\x7d).get(field, 0)`. -/
def usageCompletion (m : Option Meta) : Int :=
  (((m.bind Meta.usage).bind Usage.completion_tokens).getD 0)

def usagePrompt (m : Option Meta) : Int :=
  (((m.bind Meta.usage).bind Usage.prompt_tokens).getD 0)

def usageTotal (m : Option Meta) : Int :=
  (((m.bind Meta.usage).bind Usage.total_tokens).getD 0)

/-! ## Stream translation (`_handle_chat_stream_message`) -/

/-- The chunk dict built for a `message` / `agent_message` event. -/
def messageChunkJson (e : Event) : JValue :=
  .obj [("id", .str ("chatcmpl-" ++ e.message_id.getD "none")),
        ("object", .str "chat.completion.chunk"),
        ("created", .int (e.created.getD 0)),
        ("model", .str "gpt-3.5-turbo"),
        ("system_fingerprint", .str "difyai"),
        ("choices", .arr [.obj
          [("index", .int 0),
           ("delta", .obj [("role", .str "assistant"),
                           ("content", .str (e.answer.getD ""))]),
           ("finish_reason", .null)]])]

/-- The chunk dict built for a `message_end` event. -/
def endChunkJson (e : Event) : JValue :=
  .obj [("id", .str ("chatcmpl-" ++ e.message_id.getD "none")),
        ("object", .str "chat.completion.chunk"),
        ("created", .int (e.created.getD 0)),
        ("model", .str "gpt-3.5-turbo"),
        ("system_fingerprint", .str "difyai"),
        ("choices", .arr [.obj
          [("index", .int 0), ("delta", .obj []), ("finish_reason", .str "stop")]]),
        ("usage", .obj
          [("completion_tokens", .int (usageCompletion e.metadata)),
           ("prompt_tokens", .int (usagePrompt e.metadata)),
           ("total_tokens", .int (usageTotal e.metadata))])]

/-- The chunk dict built for a `message_file` event; `mid` is the
`message_id` local variable (the `"id"` of the last message chunk, `""`
before any). Note there is no `finish_reason` key. -/
def fileChunkJson (mid : String) (e : Event) : JValue :=
  .obj [("id", .str ("chatcmpl-" ++ mid)),
        ("object", .str "chat.completion.chunk"),
        ("created", .int (e.created.getD 0)),
        ("model", .str "gpt-3.5-turbo"),
        ("system_fingerprint", .str "difyai"),
        ("choices", .arr [.obj
          [("index", .int 0),
           ("delta", .obj [("role", .str "assistant"),
                           ("content", .str ("[" ++ e.id.getD "none" ++ "]("
                              ++ e.url.getD "" ++ ")"))])]])]

def wireChunk (v : JValue) : String := "data: " ++ jDumps v ++ "\n\n"

/-- The loop of `_handle_chat_stream_message`; `mid` is the `message_id`
variable, reassigned to the emitted chunk's `"id"` after each
`message`/`agent_message` chunk. -/
def handleStreamAux (mid : String) : List Event → List String
  | [] => ["data: [DONE]\n\n"]
  | e :: rest =>
    if e.event == some "agent_message" || e.event == some "message" then
      wireChunk (messageChunkJson e)
        :: handleStreamAux ("chatcmpl-" ++ e.message_id.getD "none") rest
    else if e.event == some "message_end" then
      wireChunk (endChunkJson e) :: handleStreamAux mid rest
    else if e.event == some "message_file" then
      wireChunk (fileChunkJson mid e) :: handleStreamAux mid rest
    else
      handleStreamAux mid rest

/-- `_handle_chat_stream_message`: `message_id` starts as `""`; after the
loop the `data: [DONE]` sentinel is emitted. -/
def handleChatStreamMessage (events : List Event) : List String :=
  handleStreamAux "" events

/-! ## Blocking translation (`_handle_chat_blocking_message`) -/

structure RespObj where
  id : Option String
  answer : Option String
  created : Option Int
  metadata : Option Meta
  conversation_id : Option String
deriving DecidableEq, Repr

/-- The completion dict built for a blocking response.  The `usage` block
has no `total_tokens` key. -/
def blockingMessageJson (r : RespObj) : JValue :=
  .obj [("id", .str ("chatcmpl-" ++ r.id.getD "none")),
        ("object", .str "chat.completion"),
        ("created", .int (r.created.getD 0)),
        ("model", .str "gpt-3.5-turbo"),
        ("system_fingerprint", .str "difyai"),
        ("choices", .arr [.obj
          [("index", .int 0),
           ("message", .obj [("role", .str "assistant"),
                             ("content", .str (r.answer.getD ""))]),
           ("finish_reason", .str "stop")]]),
        ("usage", .obj
          [("completion_tokens", .int (usageCompletion r.metadata)),
           ("prompt_tokens", .int (usagePrompt r.metadata))])]

/-- `_handle_chat_blocking_message`. -/
def handleChatBlockingMessage (r : RespObj) : String :=
  jDumps (blockingMessageJson r)

/-! ## Storage capability and safe adapter

The external store (`self.session.storage`) maps keys to byte strings and
may fault: `get` raises `KeyError` on a missing key and may raise other
exceptions, `set` may raise.  Bytes are `List Nat`. -/

def Bytes := List Nat
deriving instance DecidableEq for Bytes

structure StoreState where
  contents : String → Option Bytes

structure StoreFaults where
  getFault : String → Bool
  setFault : String → Bool

inductive StorageErr where
  | keyError : StorageErr
  | other : StorageErr
deriving DecidableEq, Repr

/-- The raw `self.session.storage.get` call. -/
def storageGet (st : StoreState) (f : StoreFaults) (k : String) : Except StorageErr Bytes :=
  if f.getFault k then .error .other
  else match st.contents k with
    | none => .error .keyError
    | some v => .ok v

/-- The raw `self.session.storage.set` call; returns the new state or
raises. -/
def storageSet (st : StoreState) (f : StoreFaults) (k : String) (v : Bytes) :
    Except StorageErr StoreState :=
  if f.setFault k then .error .other
  else .ok ⟨fun k' => if k' = k then some v else st.contents k'⟩

/-- `_safe_storage_get`: any exception (`KeyError` or other) becomes `None`. -/
def safeStorageGet (st : StoreState) (f : StoreFaults) (k : String) : Option Bytes :=
  match storageGet st f k with
  | .ok v => some v
  | .error _ => none

/-- `_safe_storage_set`: returns `True`/`False`; on an exception the state is
unchanged. -/
def safeStorageSet (st : StoreState) (f : StoreFaults) (k : String) (v : Bytes) :
    Bool × StoreState :=
  match storageSet st f k v with
  | .ok st' => (true, st')
  | .error _ => (false, st)

/-! ## ConversationInfo and `_backtracking_conversation_id`

`ConversationInfo` is a pydantic model; its JSON (de)serialisation
(`model_dump_json` / `model_validate_json` with the `parse_raw` fallback)
is kept abstract: `dump` serialises a record and `parse` returns `none`
when both parse attempts fail (including a `UnicodeDecodeError`). -/

structure ConversationInfo where
  conversation_id : String
  created_at : Int
  user_id : String
deriving DecidableEq, Repr

/-- `_backtracking_conversation_id`: skip empty ids, otherwise serialise a
`ConversationInfo` (with the current time `now`) and write it under the
conversation key; store faults are absorbed.  Returns the new store state
and the write attempts `(key, value)` issued to the raw store. -/
def backtrackingConversationId (dump : ConversationInfo → Bytes) (now : Int)
    (st : StoreState) (f : StoreFaults) (messages : List Message) (user : String)
    (conversationId : String) : StoreState × List (String × Bytes) :=
  if conversationId = "" then (st, [])
  else
    let key := generateConversationKey messages user
    let data := dump ⟨conversationId, now, user⟩
    ((safeStorageSet st f key data).2, [(key, data)])

/-! ## Conversation resolver (`_get_memory`) -/

inductive MemErr where
  | noUserMessage : MemErr
  | invalidMode : String → MemErr
deriving DecidableEq, Repr

/-- The `ValueError` message text raised by `_get_memory`. -/
def memErrMsg : MemErr → String
  | .noUserMessage => "No user message found"
  | .invalidMode m => "Invalid memory mode: " ++ m ++ ", only support last_user_message for now"

/-- The `user_message` variable after the reversed scan: it starts as `""`
and becomes `message.get("content")` (possibly `None`) of the last message
with role `"user"`. -/
def lastUserContent (messages : List Message) : Option String :=
  match messages.reverse.find? (fun m => m.role == some "user") with
  | none => some ""
  | some m => m.content

/-- `any(msg.role == "assistant")`, the multi-turn flag. -/
def hasAssistantMessage (messages : List Message) : Bool :=
  messages.any (fun m => m.role == some "assistant")

/-- `_get_memory`, instrumented with the list of keys read from the raw
store.  Returns `(conversation_id, query)` or raises `ValueError`. -/
def getMemoryT (parse : Bytes → Option ConversationInfo) (st : StoreState)
    (f : StoreFaults) (memoryMode : String) (messages : List Message) (user : String) :
    Except MemErr (String × String) × List String :=
  if memoryMode = "last_user_message" then
    let um := lastUserContent messages
    if pyTruthyOptStr um = false then (.error .noUserMessage, [])
    else
      let query := um.getD ""
      if hasAssistantMessage messages then
        let key := generateConversationKey messages user
        match safeStorageGet st f key with
        | some data =>
          -- `if stored_data:` — empty bytes are falsy
          if data = ([] : List Nat) then (.ok ("", query), [key])
          else match parse data with
            | some info => (.ok (info.conversation_id, query), [key])
            | none => (.ok ("", query), [key])
        | none => (.ok ("", query), [key])
      else (.ok ("", query), [])
  else (.error (.invalidMode memoryMode), [])

def getMemory (parse : Bytes → Option ConversationInfo) (st : StoreState)
    (f : StoreFaults) (memoryMode : String) (messages : List Message) (user : String) :
    Except MemErr (String × String) :=
  (getMemoryT parse st f memoryMode messages user).1

/-! ## Request orchestrator (`_invoke`) -/

/-- The `settings["app_id"]["app_id"]` value: `missing` covers an absent
key (the `.get` defaults make it `""`), `strVal` a string value, and the
`nonStr` cases a non-string value of the given truthiness. -/
inductive AppIdVal where
  | missing : AppIdVal
  | strVal : String → AppIdVal
  | nonStrTruthy : AppIdVal
  | nonStrFalsy : AppIdVal
deriving DecidableEq, Repr

structure Settings where
  app_id : AppIdVal
  memory_mode : Option String
deriving Repr

/-- The app-id validation at the top of `_invoke`: `raise ValueError` when
the value is falsy or not a string.  This code runs BEFORE the
`try:` block. -/
def appIdCheck : Settings → Except String String
  | ⟨.missing, _⟩ => .error "App ID is required"
  | ⟨.strVal s, _⟩ => if s = "" then .error "App ID is required" else .ok s
  | ⟨.nonStrFalsy, _⟩ => .error "App ID is required"
  | ⟨.nonStrTruthy, _⟩ => .error "App ID must be a string"

structure RequestData where
  messages : List Message
  stream : Bool
  user : String

/-- What the backend `self.session.app.chat.invoke` yields for this
request: the event sequence in streaming mode, the response object in
blocking mode. -/
structure Backend where
  streamEvents : List Event
  blockingResp : RespObj

/-- The observable outcome of `_invoke`: an HTTP response (status,
content type, body chunks), or no response at all — an exception that
escaped the `try:` block is absorbed by the `@logger.catch` decorator and
the handler returns `None`. -/
inductive InvokeOutcome where
  | response : Nat → String → List String → InvokeOutcome
  | noResponse : String → InvokeOutcome
deriving Repr

/-- The `generator()` closure used in streaming mode, fully consumed:
when the resolved `conversation_id` is empty it peeks the first event
(`next(response, None)`), persists a newly learned conversation id, and
re-prefixes the peeked event; an empty or falsy first chunk falls back to
translating the remaining stream.  Returns the emitted wire chunks, the
final store state and the raw write attempts. -/
def streamGenerator (dump : ConversationInfo → Bytes) (now : Int) (st : StoreState)
    (f : StoreFaults) (messages : List Message) (user : String)
    (events : List Event) (conversationId : String) :
    List String × StoreState × List (String × Bytes) :=
  if conversationId = "" then
    match events with
    | [] => (handleChatStreamMessage [], st, [])
    | e :: rest =>
      if e.truthy then
        let newId := e.conversation_id.getD ""
        let (st', ws) :=
          if newId ≠ "" then backtrackingConversationId dump now st f messages user newId
          else (st, [])
        (handleChatStreamMessage (e :: rest), st', ws)
      else (handleChatStreamMessage rest, st, [])
  else (handleChatStreamMessage events, st, [])

/-- `_invoke`, after request parsing: resolves memory, invokes the backend
(whose output is the `backend` parameter) and translates it, persisting a
newly learned conversation id for new conversations.  Returns the outcome,
the final store state and the raw write attempts. -/
def invokeF (parse : Bytes → Option ConversationInfo) (dump : ConversationInfo → Bytes)
    (now : Int) (settings : Settings) (req : RequestData) (backend : Backend)
    (st : StoreState) (f : StoreFaults) :
    InvokeOutcome × StoreState × List (String × Bytes) :=
  match appIdCheck settings with
  | .error e => (.noResponse e, st, [])
  | .ok _ =>
    let memoryMode := settings.memory_mode.getD "last_user_message"
    match getMemory parse st f memoryMode req.messages req.user with
    | .error e => (.response 400 "text/plain" ["Error: " ++ memErrMsg e], st, [])
    | .ok (conversationId, _query) =>
      if req.stream then
        let (chunks, st', ws) :=
          streamGenerator dump now st f req.messages req.user backend.streamEvents
            conversationId
        (.response 200 "text/event-stream" chunks, st', ws)
      else
        let resp := backend.blockingResp
        let (st', ws) :=
          if conversationId = "" ∧ (resp.conversation_id.getD "") ≠ "" then
            backtrackingConversationId dump now st f req.messages req.user
              (resp.conversation_id.getD "")
          else (st, [])
        (.response 200 "text/html" [handleChatBlockingMessage resp], st', ws)

/-! ## Concrete inputs used by scenario theorems and counterexamples -/

/-- A parse function that always fails. -/
def parseNone : Bytes → Option ConversationInfo := fun _ => none

/-- A parse function returning a fixed record with conversation id `"abc"`. -/
def parseAbc : Bytes → Option ConversationInfo := fun _ => some ⟨"abc", 0, "u"⟩

/-- A dump function (its output is never inspected by the adapter). -/
def dump0 : ConversationInfo → Bytes := fun _ => []

/-- The empty store. -/
def st0 : StoreState := ⟨fun _ => none⟩

/-- A store holding (non-empty) bytes under every key. -/
def stOne : StoreState := ⟨fun _ => some [1]⟩

/-- The fault-free fault model. -/
def f0 : StoreFaults := ⟨fun _ => false, fun _ => false⟩

/-- The always-failing fault model. -/
def fAll : StoreFaults := ⟨fun _ => true, fun _ => true⟩

def ev1C7 : Event :=
  ⟨some "message", some "1", some 100, some "Hi", none, none, none, none⟩

def ev2C7 : Event :=
  ⟨some "message_end", some "1", some 101, none,
    some ⟨some ⟨some 2, some 3, some 5⟩⟩, none, none, none⟩

def m1C1 : List Message := [⟨some "assistant", some "a"⟩]

def m2C1 : List Message := [⟨some "assistant", some "b"⟩]

/-- A single user message whose `content` is the empty string. -/
def msgsC2 : List Message := [⟨some "user", some ""⟩]

/-- A single user message with no `content` key. -/
def msgsC4 : List Message := [⟨some "user", none⟩]

def evMsgC10 : Event :=
  ⟨some "message", some "1", some 0, some "x", none, none, none, none⟩

def evFileC10 : Event :=
  ⟨some "message_file", none, some 0, none, none, some "http://x", some "f", none⟩

/-- A continuing-conversation message list: a user query followed by an
assistant turn. -/
def msgsCont : List Message := [⟨some "user", some "q"⟩, ⟨some "assistant", some "a"⟩]

def settingsW : Settings := ⟨.strVal "app", none⟩

def respNone : RespObj := ⟨none, none, none, none, none⟩

def backendW : Backend := ⟨[], respNone⟩

/-! ## Helper lemmas -/

/-- An event with no `event` tag yields no chunk. -/
theorem handleStreamAux_skip (mid : String) (e : Event) (rest : List Event)
    (h : e.event = none) :
    handleStreamAux mid (e :: rest) = handleStreamAux mid rest := by
  simp [handleStreamAux, h]

/-- When the last user message has truthy content, `_get_memory` succeeds
and the query is that content, whatever the store holds. -/
theorem getMemory_ok_of_truthy (parse : Bytes → Option ConversationInfo)
    (st : StoreState) (f : StoreFaults) (messages : List Message) (user : String)
    (h : pyTruthyOptStr (lastUserContent messages) = true) :
    ∃ cid, getMemory parse st f "last_user_message" messages user
      = .ok (cid, (lastUserContent messages).getD "") := by
  unfold getMemory getMemoryT
  rw [if_pos rfl, if_neg (by simp [h])]
  cases ha : hasAssistantMessage messages
  · exact ⟨"", by simp [ha]⟩
  · simp only [ha, if_true]
    cases hg : safeStorageGet st f (generateConversationKey messages user) with
    | none => exact ⟨"", by simp⟩
    | some data =>
      by_cases hd : data = ([] : List Nat)
      · exact ⟨"", by simp [hd]⟩
      · cases hp : parse data with
        | none => exact ⟨"", by simp [hd, hp]⟩
        | some info => exact ⟨info.conversation_id, by simp [hd, hp]⟩

/-! ## Claim theorems -/

set_option maxRecDepth 8192 in
/-- C7: stream translation of the two-event scenario
`[message(answer "Hi", id "1", created 100),
  message_end(id "1", created 101, usage 2/3/5)]`
produces exactly three output strings: a `data:` chunk whose
`choices[0].delta.content` is `"Hi"` with `finish_reason` null, a `data:`
chunk with empty `delta`, `finish_reason` `"stop"` and
`usage.total_tokens` 5, and the literal sentinel `"data: [DONE]\n\n"`. -/
theorem stream_translation_scenario :
    handleChatStreamMessage [ev1C7, ev2C7]
      = [wireChunk (messageChunkJson ev1C7), wireChunk (endChunkJson ev2C7),
         "data: [DONE]\n\n"]
    ∧ wireChunk (messageChunkJson ev1C7)
      = "data: \x7b\"id\": \"chatcmpl-1\", \"object\": \"chat.completion.chunk\", \"created\": 100, \"model\": \"gpt-3.5-turbo\", \"system_fingerprint\": \"difyai\", \"choices\": [\x7b\"index\": 0, \"delta\": \x7b\"role\": \"assistant\", \"content\": \"Hi\"\x7d, \"finish_reason\": null\x7d]\x7d\n\n"
    ∧ wireChunk (endChunkJson ev2C7)
      = "data: \x7b\"id\": \"chatcmpl-1\", \"object\": \"chat.completion.chunk\", \"created\": 101, \"model\": \"gpt-3.5-turbo\", \"system_fingerprint\": \"difyai\", \"choices\": [\x7b\"index\": 0, \"delta\": \x7b\x7d, \"finish_reason\": \"stop\"\x7d], \"usage\": \x7b\"completion_tokens\": 2, \"prompt_tokens\": 3, \"total_tokens\": 5\x7d\x7d\n\n"
    ∧ ((jChoice0 (messageChunkJson ev1C7)).bind (fun c => jObjGet c "delta")).bind
        (fun d => jObjGet d "content") = some (.str "Hi")
    ∧ (jChoice0 (messageChunkJson ev1C7)).bind (fun c => jObjGet c "finish_reason")
        = some .null
    ∧ (jChoice0 (endChunkJson ev2C7)).bind (fun c => jObjGet c "delta") = some (.obj [])
    ∧ (jChoice0 (endChunkJson ev2C7)).bind (fun c => jObjGet c "finish_reason")
        = some (.str "stop")
    ∧ (jObjGet (endChunkJson ev2C7) "usage").bind (fun u => jObjGet u "total_tokens")
        = some (.int 5) :=
  ⟨rfl, rfl, rfl, rfl, rfl, rfl, rfl, rfl⟩

/-- C8: for every backend response object, blocking translation emits the
JSON serialisation of a single completion object whose `id` is
`"chatcmpl-"` plus the response id (`"chatcmpl-none"` if absent), whose
`choices[0].message.content` is the response's answer (defaulted to `""`),
whose `choices[0].finish_reason` is `"stop"`, and whose `usage` block holds
exactly `completion_tokens` and `prompt_tokens` (each defaulting to 0 when
missing) with no `total_tokens` field. -/
theorem blocking_translation_shape (r : RespObj) :
    handleChatBlockingMessage r = jDumps (blockingMessageJson r)
    ∧ jObjGet (blockingMessageJson r) "id" = some (.str ("chatcmpl-" ++ r.id.getD "none"))
    ∧ ((jChoice0 (blockingMessageJson r)).bind (fun c => jObjGet c "message")).bind
        (fun m => jObjGet m "content") = some (.str (r.answer.getD ""))
    ∧ (jChoice0 (blockingMessageJson r)).bind (fun c => jObjGet c "finish_reason")
        = some (.str "stop")
    ∧ jObjGet (blockingMessageJson r) "usage"
      = some (.obj
          [("completion_tokens",
            .int (((r.metadata.bind Meta.usage).bind Usage.completion_tokens).getD 0)),
           ("prompt_tokens",
            .int (((r.metadata.bind Meta.usage).bind Usage.prompt_tokens).getD 0))])
    ∧ (jObjGet (blockingMessageJson r) "usage").bind (fun u => jObjGet u "total_tokens")
        = none :=
  ⟨rfl, rfl, rfl, rfl, rfl, rfl⟩

/-- C10 counterexample: after a `message` chunk with id `"chatcmpl-1"`, the
chunk for a following `message_file` event has id
`"chatcmpl-chatcmpl-1"`, not the previous chunk's id `"chatcmpl-1"`: the
code prepends `"chatcmpl-"` to the stored `message_id` variable, which
already holds the full previous chunk id. -/
theorem message_file_id_counterexample :
    handleChatStreamMessage [evMsgC10, evFileC10]
      = [wireChunk (messageChunkJson evMsgC10),
         wireChunk (fileChunkJson "chatcmpl-1" evFileC10), "data: [DONE]\n\n"]
    ∧ jObjGet (messageChunkJson evMsgC10) "id" = some (.str "chatcmpl-1")
    ∧ jObjGet (fileChunkJson "chatcmpl-1" evFileC10) "id"
        = some (.str "chatcmpl-chatcmpl-1")
    ∧ ("chatcmpl-chatcmpl-1" : String) ≠ "chatcmpl-1" :=
  ⟨rfl, rfl, rfl, by decide⟩

/-- C10 (amended): a `message_file` chunk carries no `finish_reason` field;
its id is `"chatcmpl-"` prepended to the `message_id` variable, which holds
the full id of the most recent `message`/`agent_message` chunk (giving a
doubled `"chatcmpl-chatcmpl-<mid>"`), and is `""` before any such chunk, so
a `message_file` event arriving first yields the literal id
`"chatcmpl-"`. -/
theorem message_file_chunk_shape (mid : String) (e : Event) (rest : List Event)
    (hf : e.event = some "message_file") :
    handleStreamAux mid (e :: rest)
      = wireChunk (fileChunkJson mid e) :: handleStreamAux mid rest
    ∧ jObjGet (fileChunkJson mid e) "id" = some (.str ("chatcmpl-" ++ mid))
    ∧ (jChoice0 (fileChunkJson mid e)).bind (fun c => jObjGet c "finish_reason") = none
    ∧ (∀ e' : Event, ∀ rest' : List Event,
        e'.event = some "message" ∨ e'.event = some "agent_message" →
        handleStreamAux mid (e' :: rest')
          = wireChunk (messageChunkJson e')
              :: handleStreamAux ("chatcmpl-" ++ e'.message_id.getD "none") rest'
        ∧ jObjGet (messageChunkJson e') "id"
            = some (.str ("chatcmpl-" ++ e'.message_id.getD "none"))) := by
  refine ⟨by simp [handleStreamAux, hf], rfl, rfl, ?_⟩
  intro e' rest' h
  rcases h with h | h <;> exact ⟨by simp [handleStreamAux, h], rfl⟩

/-- Witness for C10's amended theorem at concrete inputs. -/
theorem message_file_chunk_shape_witness :
    evFileC10.event = some "message_file"
    ∧ jObjGet (fileChunkJson "chatcmpl-1" evFileC10) "id"
        = some (.str "chatcmpl-chatcmpl-1")
    ∧ (jChoice0 (fileChunkJson "chatcmpl-1" evFileC10)).bind
        (fun c => jObjGet c "finish_reason") = none :=
  ⟨rfl, (message_file_chunk_shape "chatcmpl-1" evFileC10 [] rfl).2.1,
   (message_file_chunk_shape "chatcmpl-1" evFileC10 [] rfl).2.2.1⟩

set_option maxRecDepth 100000 in
/-- C1 counterexample: the two single-assistant-message lists
`[assistant: "a"]` and `[assistant: "b"]` agree on the (absent) system
message and the (absent) first user message, yet their fingerprints
differ: with no truthy system or first-user feature, the fallback hashes
the first messages' role and content, assistant content included. -/
theorem fingerprint_assistant_dependence_counterexample :
    systemMessageOf m1C1 = systemMessageOf m2C1
    ∧ firstUserMessageOf m1C1 = firstUserMessageOf m2C1
    ∧ generateConversationKey m1C1 "u" ≠ generateConversationKey m2C1 "u" :=
  ⟨rfl, rfl, by decide⟩

/-- C1 (amended): two message lists that agree on the first system
message's content (if any) and the first user message's content (if any)
produce the same fingerprint, provided at least one of those features is
present and non-empty; in that case assistant messages are irrelevant.
(When neither feature is truthy, the fallback hashes the first four
messages' roles and truncated contents, which can include assistant
content — the counterexample.) -/
theorem fingerprint_feature_determinism (m1 m2 : List Message) (user : String)
    (hs : systemMessageOf m1 = systemMessageOf m2)
    (hu : firstUserMessageOf m1 = firstUserMessageOf m2)
    (ht : pyTruthyOptStr (systemMessageOf m1) = true
        ∨ pyTruthyOptStr (firstUserMessageOf m1) = true) :
    generateConversationKey m1 user = generateConversationKey m2 user := by
  unfold generateConversationKey
  suffices h : featureStr m1 user = featureStr m2 user by rw [h]
  unfold featureStr
  rw [hs, hu]
  rcases ht with h | h
  · rw [hs] at h
    simp [h]
  · rw [hu] at h
    by_cases hs2 : pyTruthyOptStr (systemMessageOf m2) = true <;> simp [h, hs2]

/-- Witness for C1's amended theorem: the system feature `"s"` is shared
while the assistant contents and message orders differ. -/
theorem fingerprint_feature_determinism_witness :
    systemMessageOf [⟨some "system", some "s"⟩, ⟨some "assistant", some "x"⟩]
      = systemMessageOf [⟨some "assistant", some "y"⟩, ⟨some "system", some "s"⟩]
    ∧ firstUserMessageOf [⟨some "system", some "s"⟩, ⟨some "assistant", some "x"⟩]
      = firstUserMessageOf [⟨some "assistant", some "y"⟩, ⟨some "system", some "s"⟩]
    ∧ pyTruthyOptStr (systemMessageOf
        [⟨some "system", some "s"⟩, ⟨some "assistant", some "x"⟩]) = true
    ∧ generateConversationKey
        [⟨some "system", some "s"⟩, ⟨some "assistant", some "x"⟩] "u"
      = generateConversationKey
        [⟨some "assistant", some "y"⟩, ⟨some "system", some "s"⟩] "u" :=
  ⟨rfl, rfl, rfl,
   fingerprint_feature_determinism _ _ "u" rfl rfl (Or.inl rfl)⟩

/-- C2 counterexample: the message list `[user: ""]` contains a user-role
message, yet `_get_memory` raises `No user message found`, because the
empty content is falsy. -/
theorem getMemory_empty_content_counterexample :
    msgsC2.any (fun m => m.role == some "user") = true
    ∧ getMemory parseNone st0 f0 "last_user_message" msgsC2 "u"
        = .error .noUserMessage :=
  ⟨rfl, rfl⟩

/-- C2 (amended): with mode `last_user_message`, the resolver fails with
`NoUserMessage` iff the message list has no user-role message or the last
user-role message's content is absent or empty; otherwise it succeeds and
the returned query is the content of the last user-role message. -/
theorem getMemory_noUserMessage_iff (parse : Bytes → Option ConversationInfo)
    (st : StoreState) (f : StoreFaults) (messages : List Message) (user : String) :
    (getMemory parse st f "last_user_message" messages user = .error .noUserMessage
      ↔ pyTruthyOptStr (lastUserContent messages) = false)
    ∧ (pyTruthyOptStr (lastUserContent messages) = true →
        ∃ cid, getMemory parse st f "last_user_message" messages user
          = .ok (cid, (lastUserContent messages).getD "")) := by
  constructor
  · constructor
    · intro hc
      by_contra hfalse
      have h' : pyTruthyOptStr (lastUserContent messages) = true := by
        cases hx : pyTruthyOptStr (lastUserContent messages)
        · exact absurd hx hfalse
        · rfl
      obtain ⟨cid, hok⟩ := getMemory_ok_of_truthy parse st f messages user h'
      rw [hok] at hc
      cases hc
    · intro h
      unfold getMemory getMemoryT
      rw [if_pos rfl, if_pos h]
  · exact getMemory_ok_of_truthy parse st f messages user

/-- Witness for C2's amended theorem at `[user: "hello"]`. -/
theorem getMemory_noUserMessage_iff_witness :
    pyTruthyOptStr (lastUserContent [⟨some "user", some "hello"⟩]) = true
    ∧ ∃ cid, getMemory parseNone st0 f0 "last_user_message"
        [⟨some "user", some "hello"⟩] "u" = .ok (cid, "hello") :=
  ⟨by decide,
   (getMemory_noUserMessage_iff parseNone st0 f0 [⟨some "user", some "hello"⟩] "u").2
     (by decide)⟩

/-- C4 counterexample: `[user (no content key)]` has no assistant message
and contains a user-role message, yet the resolver raises instead of
returning `("", query)`. -/
theorem resolver_new_conversation_counterexample :
    hasAssistantMessage msgsC4 = false
    ∧ msgsC4.any (fun m => m.role == some "user") = true
    ∧ getMemory parseNone st0 f0 "last_user_message" msgsC4 "u"
        = .error .noUserMessage :=
  ⟨rfl, rfl, rfl⟩

/-- C4 (amended): for every message list with no assistant-role message
whose last user-role message has non-empty content, and every store state
and fault model, the resolver returns the empty session handle paired with
the query and performs no store read. -/
theorem resolver_new_conversation_rule (parse : Bytes → Option ConversationInfo)
    (st : StoreState) (f : StoreFaults) (messages : List Message) (user : String)
    (hna : hasAssistantMessage messages = false)
    (hu : pyTruthyOptStr (lastUserContent messages) = true) :
    getMemoryT parse st f "last_user_message" messages user
      = (.ok ("", (lastUserContent messages).getD ""), []) := by
  simp [getMemoryT, hna, hu]

/-- Witness for C4's amended theorem at `[user: "hi"]`. -/
theorem resolver_new_conversation_rule_witness :
    hasAssistantMessage [⟨some "user", some "hi"⟩] = false
    ∧ pyTruthyOptStr (lastUserContent [⟨some "user", some "hi"⟩]) = true
    ∧ getMemoryT parseNone st0 f0 "last_user_message" [⟨some "user", some "hi"⟩] "u"
        = (.ok ("", "hi"), []) :=
  ⟨by decide, by decide,
   resolver_new_conversation_rule parseNone st0 f0 [⟨some "user", some "hi"⟩] "u"
     (by decide) (by decide)⟩

/-- C3: in streaming mode for a new conversation (empty session handle),
the wire chunks emitted by the generator equal the stream translation of
the original backend event sequence, for every event sequence and store:
peeking the first event neither drops nor duplicates anything in the
output. -/
theorem stream_peek_preserves_events (dump : ConversationInfo → Bytes) (now : Int)
    (st : StoreState) (f : StoreFaults) (messages : List Message) (user : String)
    (events : List Event) :
    (streamGenerator dump now st f messages user events "").1
      = handleChatStreamMessage events := by
  unfold streamGenerator
  rw [if_pos rfl]
  cases events with
  | nil => rfl
  | cons e rest =>
    cases ht : e.truthy
    · have hev : e.event = none := by
        rcases e with ⟨ev, _, _, _, _, _, _, _⟩
        cases hx : ev
        · rfl
        · rw [hx] at ht
          simp [Event.truthy] at ht
      simp only [ht]
      exact (handleStreamAux_skip "" e rest hev).symm
    · simp [ht]

/-- C5: with a missing (or non-string) configured app id, `_invoke` raises
`ValueError` before the `try:` block that maps `ValueError` to a 400
response; the exception is absorbed by `@logger.catch` and the handler
produces no HTTP response at all (it returns `None`), leaving the store
untouched. -/
theorem missing_app_id_no_http_response :
    invokeF parseNone dump0 0 ⟨.missing, none⟩ ⟨[⟨some "user", some "q"⟩], false, "u"⟩
        backendW st0 f0
      = (.noResponse "App ID is required", st0, [])
    ∧ invokeF parseNone dump0 0 ⟨.nonStrTruthy, none⟩
        ⟨[⟨some "user", some "q"⟩], false, "u"⟩ backendW st0 f0
      = (.noResponse "App ID must be a string", st0, []) :=
  ⟨rfl, rfl⟩

/-- C6: the store adapter absorbs faults — `_safe_storage_get` returns
`none` on an underlying fault or missing key, `_safe_storage_set` returns
`false` and leaves the state unchanged on a fault — and if every store get
faults, the resolver on a continuing conversation (one with an assistant
message and a truthy last user message) still returns the empty session
handle with the query. -/
theorem store_adapter_fault_tolerance (st : StoreState) (f : StoreFaults)
    (k : String) (v : Bytes) (parse : Bytes → Option ConversationInfo)
    (messages : List Message) (user : String) :
    (f.getFault k = true → safeStorageGet st f k = none)
    ∧ (st.contents k = none → safeStorageGet st f k = none)
    ∧ (f.setFault k = true → safeStorageSet st f k v = (false, st))
    ∧ ((∀ k', f.getFault k' = true) → hasAssistantMessage messages = true →
        pyTruthyOptStr (lastUserContent messages) = true →
        getMemory parse st f "last_user_message" messages user
          = .ok ("", (lastUserContent messages).getD "")) := by
  refine ⟨?_, ?_, ?_, ?_⟩
  · intro hg
    simp [safeStorageGet, storageGet, hg]
  · intro hc
    by_cases hg : f.getFault k <;> simp [safeStorageGet, storageGet, hg, hc]
  · intro hs
    simp [safeStorageSet, storageSet, hs]
  · intro hg ha hu
    unfold getMemory getMemoryT
    rw [if_pos rfl, if_neg (by simp [hu])]
    simp [ha, safeStorageGet, storageGet, hg (generateConversationKey messages user)]

/-- Witness for C6 with the always-failing store. -/
theorem store_adapter_fault_tolerance_witness :
    fAll.getFault "k" = true
    ∧ safeStorageGet st0 fAll "k" = none
    ∧ safeStorageSet st0 fAll "k" [1] = (false, st0)
    ∧ getMemory parseNone st0 fAll "last_user_message" msgsCont "u" = .ok ("", "q") :=
  ⟨rfl,
   (store_adapter_fault_tolerance st0 fAll "k" [1] parseNone msgsCont "u").1 rfl,
   (store_adapter_fault_tolerance st0 fAll "k" [1] parseNone msgsCont "u").2.2.1 rfl,
   (store_adapter_fault_tolerance st0 fAll "k" [1] parseNone msgsCont "u").2.2.2
     (fun _ => rfl) rfl rfl⟩

/-- C9: whenever the resolver returns a non-empty session handle
(continuing conversation with a stored record), the orchestrator performs
no store write for the request — the persisted state is unchanged and no
set is attempted — in streaming and blocking modes alike. -/
theorem continuing_conversation_no_store_write
    (parse : Bytes → Option ConversationInfo) (dump : ConversationInfo → Bytes)
    (now : Int) (settings : Settings) (req : RequestData) (backend : Backend)
    (st : StoreState) (f : StoreFaults) (a cid q : String)
    (happ : appIdCheck settings = .ok a)
    (hmem : getMemory parse st f (settings.memory_mode.getD "last_user_message")
        req.messages req.user = .ok (cid, q))
    (hcid : cid ≠ "") :
    (invokeF parse dump now settings req backend st f).2 = (st, []) := by
  rcases req with ⟨messages, stream, user⟩
  unfold invokeF
  rw [happ]
  dsimp only
  rw [hmem]
  cases stream <;> simp [streamGenerator, hcid]

/-- Witness for C9: a continuing conversation resolving to handle
`"abc"`, exercised in streaming and blocking modes. -/
theorem continuing_conversation_no_store_write_witness :
    appIdCheck settingsW = .ok "app"
    ∧ getMemory parseAbc stOne f0 "last_user_message" msgsCont "u" = .ok ("abc", "q")
    ∧ ("abc" : String) ≠ ""
    ∧ (invokeF parseAbc dump0 0 settingsW ⟨msgsCont, true, "u"⟩ backendW stOne f0).2
        = (stOne, [])
    ∧ (invokeF parseAbc dump0 0 settingsW ⟨msgsCont, false, "u"⟩ backendW stOne f0).2
        = (stOne, []) :=
  ⟨rfl, rfl, by decide,
   continuing_conversation_no_store_write parseAbc dump0 0 settingsW
     ⟨msgsCont, true, "u"⟩ backendW stOne f0 "app" "abc" "q" rfl rfl (by decide),
   continuing_conversation_no_store_write parseAbc dump0 0 settingsW
     ⟨msgsCont, false, "u"⟩ backendW stOne f0 "app" "abc" "q" rfl rfl (by decide)⟩

end DifyCompat
